import Mathlib

/-!
Verification development for the hoopqueens box-score ingestion pipeline.

The definitions below are a shallow embedding of the Python sources:
  * `src/db/models.py`        — the pydantic transport models (`TeamBoxScoreModel`,
                                `PlayerBoxScoreModel`, `GameData`) and the stored rows
                                (`TeamBoxScore`, `PlayerBoxScore`).
  * `src/pipeline/parser.py`  — the reconcile pass (`validate_parsed_data` with its two
                                helpers `_validate_team_data` and
                                `_validate_and_correct_player_data`), the advisory check
                                (`validate_game_data`) and the file gate (`encode_file`,
                                `parse_game_file`).
  * `src/pipeline/game_service.py` — `GameService.validate_box_score_data`,
                                `save_game_stats`, `delete_game_stats`, `update_game_stats`.
  * `src/db/database.py`      — the older module-level gateway `validate_box_score_data`
                                and `save_game_data`.

Modelling conventions:
  * Python `float` statistics are embedded as `Rat`; `int` as `Int`; `str` as `String`.
  * The relational store is a `Store` value threaded explicitly; a mutating operation
    returns `Store × Except String String` where an `Except.error` result models a raised
    exception with the session rolled back (the paired store is then the unchanged input,
    matching SQLModel session semantics: rows become visible only at `session.commit()`).
  * The whole-file snapshot side effect (`create_db_snapshot`) touches the filesystem
    only and is not part of the store, so it is not modelled.
  * Python dict values flowing through `model_dump()` are dynamically typed; the
    identifier slots of a dumped row are embedded as `PyVal` so that the `int(...)`
    coercion in the save path (which can raise on non-int payloads) is representable.
  * The issue strings produced by the advisory check are embedded as the inductive
    `Issue`; each constructor corresponds to exactly one f-string of the source
    (the float formatting of the message text is presentation only).
-/

/-- A Python runtime value that can sit in an identifier slot of a dumped row. -/
inductive PyVal where
  | int (n : Int)
  | float (q : Rat)
  | str (s : String)
  | none_

/-- Python `int(x)` as used in the save path: identity on ints, truncation toward zero
on floats, decimal parse on strings (`ValueError` on a non-numeric string), and
`TypeError` on `None`; a raised error is `none`. -/
def pyIntCoerce : PyVal → Option Int
  | PyVal.int n => some n
  | PyVal.float q => some (q.num.tdiv q.den)
  | PyVal.str s => String.toInt? s
  | PyVal.none_ => none

/-- Embedding of `TeamBoxScoreModel` from `src/db/models.py` (pydantic model parsed from the
extraction service; identifier fields are pydantic `int`). -/
structure TeamBoxScoreModel where
  team_id : Int
  team_name : String
  team_abbreviation : String
  final_score : Int
  field_goals_made : Int
  field_goals_attempted : Int
  field_goal_percentage : Rat
  three_pointers_made : Int
  three_pointers_attempted : Int
  three_pointer_percentage : Rat
  free_throws_made : Int
  free_throws_attempted : Int
  free_throw_percentage : Rat
  offensive_rebounds : Int
  defensive_rebounds : Int
  total_rebounds : Int
  assists : Int
  turnovers : Int
  steals : Int
  blocks : Int
  fouls : Int
  fouls_drawn : Int
  plus_minus : Int
  efficiency : Int
  points_from_turnovers : Int
  biggest_lead : Option String
  biggest_run : Option String
  points_in_paint : Int
  field_goal_in_paint_made : Int
  field_goal_in_paint_attempted : Int
  points_in_paint_percentage : Rat
  second_chance_points : Int
  points_per_possession : Rat
  fast_break_points : Int
  fast_break_points_from_turnovers : Int
  bench_points : Int
  lead_changes : Int
  times_tied : Int
  time_with_lead : Option String

/-- Embedding of `PlayerBoxScoreModel` from `src/db/models.py`. -/
structure PlayerBoxScoreModel where
  player_id : Int
  team_id : Int
  media_name : String
  jersey_number : Option Int
  minutes : Rat
  field_goals_made : Int
  field_goals_attempted : Int
  field_goal_percentage : Rat
  three_pointers_made : Int
  three_pointers_attempted : Int
  three_pointer_percentage : Rat
  free_throws_made : Int
  free_throws_attempted : Int
  free_throw_percentage : Rat
  offensive_rebounds : Int
  defensive_rebounds : Int
  total_rebounds : Int
  assists : Int
  turnovers : Int
  steals : Int
  blocks : Int
  fouls : Int
  fouls_drawn : Int
  plus_minus : Int
  efficiency : Int
  points : Int

/-- Embedding of `GameData` from `src/db/models.py`: the transient package of one game worth of
extracted statistics. -/
structure GameData where
  team_box_scores : List TeamBoxScoreModel
  player_box_scores : List PlayerBoxScoreModel

/-- A stored `TeamBoxScore` row (`src/db/models.py`, table model): the dumped model
fields plus the `game_id` foreign key added by the save path. -/
structure TeamBoxScore where
  game_id : Int
  data : TeamBoxScoreModel

/-- A stored `PlayerBoxScore` row: the dumped model fields plus `game_id`. -/
structure PlayerBoxScore where
  game_id : Int
  data : PlayerBoxScoreModel

/-- The relational store as seen by the save and delete paths. `games` holds the ids of
existing `Game` rows (only the id takes part in any operation modelled here). -/
structure Store where
  games : List Int
  team_box_scores : List TeamBoxScore
  player_box_scores : List PlayerBoxScore

/-- The reference entry kept per player id by `get_valid_database_ids`
(`src/pipeline/parser.py`): the canonical media name and team affiliation. -/
structure PlayerRef where
  media_name : String
  team_id : Int

/-- Python dict lookup on the `valid_players` reference map (key membership plus
subscripting). -/
def lookupRef (pid : Int) : List (Int × PlayerRef) → Option PlayerRef
  | [] => none
  | (k, v) :: rest => if pid = k then some v else lookupRef pid rest

/-- Embedding of `_validate_team_data` (`src/pipeline/parser.py` lines 202-206): raise `ValueError`
on the first team box-score record whose `team_id` is not a valid team id. -/
def validate_team_data : List TeamBoxScoreModel → List Int → Except String Unit
  | [], _ => Except.ok ()
  | t :: ts, valid_team_ids =>
    if t.team_id ∈ valid_team_ids then
      validate_team_data ts valid_team_ids
    else
      Except.error ("Invalid team_id: " ++ toString t.team_id)

/-- The per-record repair step of `_validate_and_correct_player_data`
(`src/pipeline/parser.py` lines 215-229): overwrite `media_name` and then `team_id`
with the reference values whenever they differ (each overwrite prints a non-fatal
warning in the source). -/
def correct_player (p : PlayerBoxScoreModel) (ref : PlayerRef) : PlayerBoxScoreModel :=
  let p1 := if p.media_name ≠ ref.media_name then { p with media_name := ref.media_name } else p
  if p1.team_id ≠ ref.team_id then { p1 with team_id := ref.team_id } else p1

/-- Embedding of `_validate_and_correct_player_data` (`src/pipeline/parser.py` lines 209-229):
raise `ValueError` on a `player_id` missing from the reference map; otherwise run the
repair step against that reference entry. Returns the corrected list (the source
mutates the records in place). -/
def validate_and_correct_player_data :
    List PlayerBoxScoreModel → List (Int × PlayerRef) → Except String (List PlayerBoxScoreModel)
  | [], _ => Except.ok []
  | p :: ps, valid_players =>
    match lookupRef p.player_id valid_players with
    | none => Except.error ("Invalid player_id: " ++ toString p.player_id)
    | some ref =>
      match validate_and_correct_player_data ps valid_players with
      | Except.error e => Except.error e
      | Except.ok qs => Except.ok (correct_player p ref :: qs)

/-- Embedding of `validate_parsed_data` (`src/pipeline/parser.py` lines 232-239) — the reconcile
pass. The source reads the reference sets from the database via
`get_valid_database_ids`; here they are explicit arguments, as in the §4.3 contract
`reconcile(data, valid_team_ids, valid_players)`. -/
def validate_parsed_data (gd : GameData) (valid_team_ids : List Int)
    (valid_players : List (Int × PlayerRef)) : Except String GameData :=
  match validate_team_data gd.team_box_scores valid_team_ids with
  | Except.error e => Except.error e
  | Except.ok _ =>
    match validate_and_correct_player_data gd.player_box_scores valid_players with
    | Except.error e => Except.error e
    | Except.ok ps => Except.ok { gd with player_box_scores := ps }

/-- One advisory issue reported by `validate_game_data`; each constructor stands for
one f-string of the source:
`teamCountMismatch n` ↦ "Expected 2 team box scores, got n";
`tooFewPlayers t c` ↦ "Team t has only c players (minimum 5 expected)";
`invalidPct entity stat v` ↦ "entity: Invalid stat v" raised by
`_validate_percentage_range` and caught by the per-record wrapper. -/
inductive Issue where
  | teamCountMismatch (got : Nat)
  | tooFewPlayers (team_id : Int) (count : Nat)
  | invalidPct (entity : String) (stat : String) (value : Rat)
deriving DecidableEq

/-- The range test of `_validate_percentage_range` (`src/pipeline/parser.py`
lines 242-245): `0 <= value <= 1`. -/
def pctInRange (value : Rat) : Prop := 0 ≤ value ∧ value ≤ 1

instance (value : Rat) : Decidable (pctInRange value) := by
  unfold pctInRange
  infer_instance

/-- Embedding of `_validate_team_percentages` (`src/pipeline/parser.py` lines 248-257): the three
range checks run inside one `try`, so only the first failing field produces an issue. -/
def validate_team_percentages (team : TeamBoxScoreModel) : List Issue :=
  if ¬ pctInRange team.field_goal_percentage then
    [Issue.invalidPct ("Team " ++ team.team_name) ("FG%") team.field_goal_percentage]
  else if ¬ pctInRange team.three_pointer_percentage then
    [Issue.invalidPct ("Team " ++ team.team_name) ("3P%") team.three_pointer_percentage]
  else if ¬ pctInRange team.free_throw_percentage then
    [Issue.invalidPct ("Team " ++ team.team_name) ("FT%") team.free_throw_percentage]
  else []

/-- Embedding of `_validate_player_percentages` (`src/pipeline/parser.py` lines 260-269): same
first-failure shape over a player record. -/
def validate_player_percentages (player : PlayerBoxScoreModel) : List Issue :=
  if ¬ pctInRange player.field_goal_percentage then
    [Issue.invalidPct ("Player " ++ player.media_name) ("FG%") player.field_goal_percentage]
  else if ¬ pctInRange player.three_pointer_percentage then
    [Issue.invalidPct ("Player " ++ player.media_name) ("3P%") player.three_pointer_percentage]
  else if ¬ pctInRange player.free_throw_percentage then
    [Issue.invalidPct ("Player " ++ player.media_name) ("FT%") player.free_throw_percentage]
  else []

/-- One step of building `team_player_counts`: the Python
`dict.get(team_id, 0) + 1` update, preserving first-appearance key order. -/
def bumpCount (acc : List (Int × Nat)) (tid : Int) : List (Int × Nat) :=
  match acc with
  | [] => [(tid, 1)]
  | (k, c) :: rest => if k = tid then (k, c + 1) :: rest else (k, c) :: bumpCount rest tid

/-- The `team_player_counts` dict of `validate_game_data` (lines 281-283): player
counts keyed by the `team_id` values that occur in the player box-score records. -/
def teamPlayerCounts (ps : List PlayerBoxScoreModel) : List (Int × Nat) :=
  ps.foldl (fun acc p => bumpCount acc p.team_id) []

/-- Embedding of `validate_game_data` (`src/pipeline/parser.py` lines 272-296) — the advisory
check: team-count issue, minimum-roster issues derived from `team_player_counts`,
then the per-record percentage issues for teams and players. -/
def validate_game_data (gd : GameData) : List Issue :=
  (if gd.team_box_scores.length ≠ 2 then [Issue.teamCountMismatch gd.team_box_scores.length] else [])
  ++ ((teamPlayerCounts gd.player_box_scores).filter (fun tc => tc.2 < 5)).map
      (fun tc => Issue.tooFewPlayers tc.1 tc.2)
  ++ (gd.team_box_scores.map validate_team_percentages).flatten
  ++ (gd.player_box_scores.map validate_player_percentages).flatten

/-- Embedding of `GameService.game_has_stats` (`src/pipeline/game_service.py` lines 74-79): whether
any `TeamBoxScore` row exists for the game. -/
def game_has_stats (s : Store) (game_id : Int) : Bool :=
  s.team_box_scores.any (fun r => r.game_id == game_id)

/-- Embedding of `GameService.validate_box_score_data` (`src/pipeline/game_service.py`
lines 115-128): exactly two team records, a nonempty player list, and every player
`team_id` among the team-record `team_id` values. -/
def validate_box_score_data (box_score_data : GameData) : Except String Unit :=
  if box_score_data.team_box_scores.isEmpty ∨ box_score_data.team_box_scores.length ≠ 2 then
    Except.error ("Must have exactly 2 team box scores")
  else if box_score_data.player_box_scores.isEmpty then
    Except.error ("Player box scores missing")
  else
    let team_ids := box_score_data.team_box_scores.map (fun ts => ts.team_id)
    if box_score_data.player_box_scores.all (fun ps => team_ids.contains ps.team_id) then
      Except.ok ()
    else
      Except.error ("Player team IDs do not match team box score IDs")

/-- Embedding of `validate_box_score_data` from `src/db/database.py` lines 52-57 (the older
module-level gateway): only missing-or-fewer-than-two team records and a missing
player list are rejected. -/
def db_validate_box_score_data (box_score_data : GameData) : Except String Unit :=
  if box_score_data.team_box_scores.isEmpty ∨ box_score_data.team_box_scores.length < 2 then
    Except.error ("Team box scores missing or incomplete")
  else if box_score_data.player_box_scores.isEmpty then
    Except.error ("Player box scores missing")
  else
    Except.ok ()

/-- Dict produced by `model_dump()` on a team record as consumed by the save loops: the `team_id` slot
of the resulting dict as a runtime value, paired with the remaining row payload. -/
def dumpTeamRow (t : TeamBoxScoreModel) : PyVal × TeamBoxScoreModel :=
  (PyVal.int t.team_id, t)

/-- Dict produced by `model_dump()` on a player record: the `team_id` and `player_id` slots as runtime
values, paired with the remaining row payload. -/
def dumpPlayerRow (p : PlayerBoxScoreModel) : PyVal × PyVal × PlayerBoxScoreModel :=
  (PyVal.int p.team_id, PyVal.int p.player_id, p)

/-- The team loop of the save transaction (`src/pipeline/game_service.py`
lines 152-163 and `src/db/database.py` lines 97-104): coerce each dumped `team_id`
with `int(...)`, raising `ValueError` on the first failure, and stage one
`TeamBoxScore` row per record with the target `game_id` attached. -/
def addTeamRows (game_id : Int) :
    List (PyVal × TeamBoxScoreModel) → Except String (List TeamBoxScore)
  | [] => Except.ok []
  | (v, t) :: rest =>
    match pyIntCoerce v with
    | none => Except.error ("Invalid team_id")
    | some n =>
      match addTeamRows game_id rest with
      | Except.error e => Except.error e
      | Except.ok rs => Except.ok ({ game_id := game_id, data := { t with team_id := n } } :: rs)

/-- The player loop of the save transaction (`src/pipeline/game_service.py`
lines 165-179 and `src/db/database.py` lines 106-117): coerce both dumped ids,
raising on the first failure, and stage one `PlayerBoxScore` row per record. -/
def addPlayerRows (game_id : Int) :
    List (PyVal × PyVal × PlayerBoxScoreModel) → Except String (List PlayerBoxScore)
  | [] => Except.ok []
  | (vt, vp, p) :: rest =>
    match pyIntCoerce vt, pyIntCoerce vp with
    | some nt, some np =>
      (match addPlayerRows game_id rest with
       | Except.error e => Except.error e
       | Except.ok rs =>
         Except.ok ({ game_id := game_id, data := { p with team_id := nt, player_id := np } } :: rs))
    | _, _ => Except.error ("Invalid ID")

/-- The write transaction shared by both save gateways: stage all team rows, stage all
player rows, then `session.commit()`. The rows become visible in the store only on
commit; any raise inside the session rolls back, leaving the input store untouched. -/
def savePhase (s : Store) (game_id : Int) (team_dumps : List (PyVal × TeamBoxScoreModel))
    (player_dumps : List (PyVal × PyVal × PlayerBoxScoreModel)) :
    Store × Except String String :=
  match addTeamRows game_id team_dumps with
  | Except.error e => (s, Except.error ("Failed to save game data: " ++ e))
  | Except.ok trs =>
    match addPlayerRows game_id player_dumps with
    | Except.error e => (s, Except.error ("Failed to save game data: " ++ e))
    | Except.ok prs =>
      ({ s with
          team_box_scores := s.team_box_scores ++ trs,
          player_box_scores := s.player_box_scores ++ prs },
       Except.ok ("Box score data saved for Game ID: " ++ toString game_id))

/-- Embedding of `GameService.save_game_stats` (`src/pipeline/game_service.py` lines 130-190):
validate the package, require the game to exist, refuse (as a normal return) when the
game already has statistics, otherwise snapshot and run the write transaction. -/
def save_game_stats (s : Store) (game_id : Int) (box_score_data : GameData) :
    Store × Except String String :=
  match validate_box_score_data box_score_data with
  | Except.error e => (s, Except.error e)
  | Except.ok _ =>
    if s.games.contains game_id then
      if game_has_stats s game_id then
        (s, Except.ok ("Game already has statistics. No changes made."))
      else
        savePhase s game_id (box_score_data.team_box_scores.map dumpTeamRow)
          (box_score_data.player_box_scores.map dumpPlayerRow)
    else
      (s, Except.error ("Game with ID " ++ toString game_id ++ " not found"))

/-- Embedding of `save_game_data` (`src/db/database.py` lines 78-123), the module-level gateway used
by `src/pipeline/app.py`: the weaker structural validation, then the same existing-game
check, idempotent refusal, and write transaction (all raises wrapped in
`RuntimeError("Failed to save game data: ...")`). -/
def save_game_data (s : Store) (game_id : Int) (box_score_data : GameData) :
    Store × Except String String :=
  match db_validate_box_score_data box_score_data with
  | Except.error e => (s, Except.error e)
  | Except.ok _ =>
    if s.games.contains game_id then
      if game_has_stats s game_id then
        (s, Except.ok ("Game already has statistics. No changes made."))
      else
        savePhase s game_id (box_score_data.team_box_scores.map dumpTeamRow)
          (box_score_data.player_box_scores.map dumpPlayerRow)
    else
      (s, Except.error ("Failed to save game data: Game with ID " ++ toString game_id ++ " not found"))

/-- Embedding of `GameService.delete_game_stats` (`src/pipeline/game_service.py` lines 199-223):
snapshot, then delete every player and team box-score row of the game and commit. -/
def delete_game_stats (s : Store) (game_id : Int) : Store × Except String String :=
  ({ s with
      team_box_scores := s.team_box_scores.filter (fun r => r.game_id != game_id),
      player_box_scores := s.player_box_scores.filter (fun r => r.game_id != game_id) },
   Except.ok ("Deleted stats for game " ++ toString game_id))

/-- Embedding of `GameService.update_game_stats` (`src/pipeline/game_service.py` lines 192-197):
delete the existing statistics, then save the new package. -/
def update_game_stats (s : Store) (game_id : Int) (box_score_data : GameData) :
    Store × Except String String :=
  save_game_stats (delete_game_stats s game_id).1 game_id box_score_data

/-- Number of stored team box-score rows for a game. -/
def countTeamRows (s : Store) (game_id : Int) : Nat :=
  (s.team_box_scores.filter (fun r => r.game_id == game_id)).length

/-- Number of stored player box-score rows for a game. -/
def countPlayerRows (s : Store) (game_id : Int) : Nat :=
  (s.player_box_scores.filter (fun r => r.game_id == game_id)).length

/-- Embedding of `ALLOWED_EXTENSIONS` from `src/pipeline/parser.py` line 20. -/
def ALLOWED_EXTENSIONS : List String := [".pdf", ".jpg", ".jpeg", ".png"]

/-- The `mime_types` table of `encode_file` (`src/pipeline/parser.py` lines 51-56). -/
def mimeTypes : String → Option String
  | ".pdf" => some ("application/pdf")
  | ".jpg" => some ("image/jpeg")
  | ".jpeg" => some ("image/jpeg")
  | ".png" => some ("image/png")
  | _ => none

/-- Embedding of `encode_file` (`src/pipeline/parser.py` lines 43-61): reject a suffix outside
`ALLOWED_EXTENSIONS` before touching the file, else return the encoded payload with
its MIME type. `ext` stands for the already lower-cased `Path(file_path).suffix`;
the base64 transcoding of the bytes is modelled as the identity on the opaque
`contents` payload. -/
def encode_file (ext : String) (contents : String) : Except String (String × String) :=
  if ext ∈ ALLOWED_EXTENSIONS then
    match mimeTypes ext with
    | some mime => Except.ok (contents, mime)
    | none => Except.error ("Unsupported file type: " ++ ext)
  else
    Except.error ("Unsupported file type: " ++ ext)

/-- An outward-visible external effect of `parse_game_file`: constructing the OpenAI
client, and issuing the one structured-extraction request. -/
inductive Effect where
  | createClient
  | sendRequest
deriving DecidableEq

/-- The possible behaviours of the external extraction service for one request, as
distinguished by `parse_game_file` (`src/pipeline/parser.py` lines 324-366). -/
inductive RemoteOutcome where
  | parsed (gd : GameData)
  | refused
  | authError
  | rateLimited
  | apiError (msg : String)

/-- Embedding of `_handle_api_response` plus the except-clauses of `parse_game_file`
(`src/pipeline/parser.py` lines 324-366): decode the service outcome, running the
reconcile pass (`validate_parsed_data`) on a parsed payload. -/
def handle_api_response (outcome : RemoteOutcome) (valid_team_ids : List Int)
    (valid_players : List (Int × PlayerRef)) : Except String GameData :=
  match outcome with
  | RemoteOutcome.parsed gd =>
    match validate_parsed_data gd valid_team_ids valid_players with
    | Except.ok out => Except.ok out
    | Except.error e => Except.error ("Unexpected error during parsing: " ++ e)
  | RemoteOutcome.refused => Except.error ("Model refused to comply")
  | RemoteOutcome.authError => Except.error ("Invalid OpenAI API key.")
  | RemoteOutcome.rateLimited => Except.error ("OpenAI API rate limit exceeded. Please try again later.")
  | RemoteOutcome.apiError m => Except.error ("OpenAI API error: " ++ m)

/-- Embedding of `parse_game_file` (`src/pipeline/parser.py` lines 335-366) with its external
effects made explicit: encode the file first (an unsupported suffix raises before any
client exists), then require the API key, construct the client, issue the one request
and decode the outcome. The returned list records the external effects in order. -/
def parse_game_file (api_key : Option String) (ext : String) (contents : String)
    (outcome : RemoteOutcome) (valid_team_ids : List Int)
    (valid_players : List (Int × PlayerRef)) : List Effect × Except String GameData :=
  match encode_file ext contents with
  | Except.error e => ([], Except.error ("File encoding failed: " ++ e))
  | Except.ok _ =>
    match api_key with
    | none =>
      ([], Except.error ("Unexpected error during parsing: OPENAI_API_KEY environment variable is not set."))
    | some _ =>
      ([Effect.createClient, Effect.sendRequest],
       handle_api_response outcome valid_team_ids valid_players)

/-- A well-formed team record (used as a base for concrete test packages); all
percentage fields sit inside `[0, 1]`. -/
def sampleTeam : TeamBoxScoreModel :=
  { team_id := 1
    team_name := "T1"
    team_abbreviation := "TA"
    final_score := 80
    field_goals_made := 30
    field_goals_attempted := 60
    field_goal_percentage := 1
    three_pointers_made := 6
    three_pointers_attempted := 20
    three_pointer_percentage := 0
    free_throws_made := 14
    free_throws_attempted := 20
    free_throw_percentage := 1
    offensive_rebounds := 10
    defensive_rebounds := 20
    total_rebounds := 30
    assists := 15
    turnovers := 10
    steals := 5
    blocks := 3
    fouls := 12
    fouls_drawn := 14
    plus_minus := 5
    efficiency := 90
    points_from_turnovers := 12
    biggest_lead := none
    biggest_run := none
    points_in_paint := 30
    field_goal_in_paint_made := 15
    field_goal_in_paint_attempted := 25
    points_in_paint_percentage := 1
    second_chance_points := 8
    points_per_possession := 1
    fast_break_points := 10
    fast_break_points_from_turnovers := 6
    bench_points := 20
    lead_changes := 4
    times_tied := 3
    time_with_lead := none }

/-- The second team record of the concrete packages. -/
def sampleTeam2 : TeamBoxScoreModel :=
  { sampleTeam with team_id := 2, team_name := "T2", team_abbreviation := "TB" }

/-- A third team record, for packages with too many team sides. -/
def sampleTeam3 : TeamBoxScoreModel :=
  { sampleTeam with team_id := 3, team_name := "T3", team_abbreviation := "TC" }

/-- A well-formed player record matching reference entry 101 (team 1, "A. One"). -/
def samplePlayer : PlayerBoxScoreModel :=
  { player_id := 101
    team_id := 1
    media_name := "A. One"
    jersey_number := some 7
    minutes := 30
    field_goals_made := 8
    field_goals_attempted := 16
    field_goal_percentage := 1
    three_pointers_made := 2
    three_pointers_attempted := 6
    three_pointer_percentage := 0
    free_throws_made := 4
    free_throws_attempted := 4
    free_throw_percentage := 1
    offensive_rebounds := 2
    defensive_rebounds := 5
    total_rebounds := 7
    assists := 4
    turnovers := 2
    steals := 1
    blocks := 1
    fouls := 3
    fouls_drawn := 2
    plus_minus := 6
    efficiency := 20
    points := 22 }

/-- The reference team-id set of the §8 scenario: teams 1 and 2. -/
def referenceTeams : List Int := [1, 2]

/-- The reference player map of the §8 scenario: 101 ↦ (team 1, "A. One"),
102 ↦ (team 2, "B. Two"). -/
def referencePlayers : List (Int × PlayerRef) :=
  [(101, { media_name := "A. One", team_id := 1 }),
   (102, { media_name := "B. Two", team_id := 2 })]

/-- A player record with an id (999) absent from the reference map. -/
def playerUnknown : PlayerBoxScoreModel := { samplePlayer with player_id := 999 }

/-- The package of the §8 referential-rejection scenario: valid team records plus a
player record referencing the unknown id 999. -/
def gdUnknownPlayer : GameData :=
  { team_box_scores := [sampleTeam, sampleTeam2], player_box_scores := [playerUnknown] }

lemma validate_team_data_error_of (ts : List TeamBoxScoreModel) (vt : List Int)
    (h : ∃ t ∈ ts, t.team_id ∉ vt) : ∃ e, validate_team_data ts vt = Except.error e := by
  induction ts with
  | nil => simp at h
  | cons t ts ih =>
    obtain ⟨x, hx, hbad⟩ := h
    rcases List.mem_cons.mp hx with rfl | hx2
    · exact ⟨"Invalid team_id: " ++ toString x.team_id, by simp [validate_team_data, hbad]⟩
    · by_cases hm : t.team_id ∈ vt
      · obtain ⟨e, he⟩ := ih ⟨x, hx2, hbad⟩
        exact ⟨e, by simp [validate_team_data, hm, he]⟩
      · exact ⟨"Invalid team_id: " ++ toString t.team_id, by simp [validate_team_data, hm]⟩

lemma validate_and_correct_player_data_error_of (ps : List PlayerBoxScoreModel)
    (vp : List (Int × PlayerRef)) (h : ∃ p ∈ ps, lookupRef p.player_id vp = none) :
    ∃ e, validate_and_correct_player_data ps vp = Except.error e := by
  induction ps with
  | nil => simp at h
  | cons p ps ih =>
    obtain ⟨x, hx, hbad⟩ := h
    rcases List.mem_cons.mp hx with rfl | hx2
    · exact ⟨"Invalid player_id: " ++ toString x.player_id,
        by simp [validate_and_correct_player_data, hbad]⟩
    · match hl : lookupRef p.player_id vp with
      | none =>
        exact ⟨"Invalid player_id: " ++ toString p.player_id,
          by simp [validate_and_correct_player_data, hl]⟩
      | some ref =>
        obtain ⟨e, he⟩ := ih ⟨x, hx2, hbad⟩
        exact ⟨e, by simp [validate_and_correct_player_data, hl, he]⟩

/-- C1: for every package and reference sets, the reconcile pass
(`validate_parsed_data`) raises a referential `ValueError` whenever some team
box-score record has a `team_id` outside `valid_team_ids` or some player box-score
record has a `player_id` that is not a key of `valid_players`; an erroring reconcile
yields no validated package, so nothing reaches the save gateway. -/
theorem reconcile_rejects_unknown_ids (gd : GameData) (vt : List Int)
    (vp : List (Int × PlayerRef))
    (h : (∃ t ∈ gd.team_box_scores, t.team_id ∉ vt) ∨
         (∃ p ∈ gd.player_box_scores, lookupRef p.player_id vp = none)) :
    ∃ e, validate_parsed_data gd vt vp = Except.error e := by
  rcases h with hteam | hplayer
  · obtain ⟨e, he⟩ := validate_team_data_error_of _ _ hteam
    exact ⟨e, by simp [validate_parsed_data, he]⟩
  · match ht : validate_team_data gd.team_box_scores vt with
    | Except.error e => exact ⟨e, by simp [validate_parsed_data, ht]⟩
    | Except.ok u =>
      obtain ⟨e, he⟩ := validate_and_correct_player_data_error_of _ _ hplayer
      exact ⟨e, by simp [validate_parsed_data, ht, he]⟩

/-- Witness for C1: the concrete §8 package referencing player id 999 is rejected by
the reconcile pass. -/
theorem reconcile_rejects_unknown_ids_witness :
    ∃ e, validate_parsed_data gdUnknownPlayer referenceTeams referencePlayers =
      Except.error e :=
  reconcile_rejects_unknown_ids gdUnknownPlayer referenceTeams referencePlayers
    (Or.inr ⟨playerUnknown, List.mem_singleton.mpr rfl, rfl⟩)

lemma correct_player_player_id (p : PlayerBoxScoreModel) (ref : PlayerRef) :
    (correct_player p ref).player_id = p.player_id := by
  unfold correct_player
  by_cases h1 : p.media_name = ref.media_name <;>
    by_cases h2 : p.team_id = ref.team_id <;> simp [h1, h2]

lemma correct_player_media_name (p : PlayerBoxScoreModel) (ref : PlayerRef) :
    (correct_player p ref).media_name = ref.media_name := by
  unfold correct_player
  by_cases h1 : p.media_name = ref.media_name <;>
    by_cases h2 : p.team_id = ref.team_id <;> simp [h1, h2]

lemma correct_player_team_id (p : PlayerBoxScoreModel) (ref : PlayerRef) :
    (correct_player p ref).team_id = ref.team_id := by
  unfold correct_player
  by_cases h1 : p.media_name = ref.media_name <;>
    by_cases h2 : p.team_id = ref.team_id <;> simp [h1, h2]

lemma correct_player_eq_self (p : PlayerBoxScoreModel) (ref : PlayerRef)
    (h1 : p.media_name = ref.media_name) (h2 : p.team_id = ref.team_id) :
    correct_player p ref = p := by
  unfold correct_player
  simp [h1, h2]

lemma validate_and_correct_ok_fields (ps : List PlayerBoxScoreModel)
    (vp : List (Int × PlayerRef)) (qs : List PlayerBoxScoreModel)
    (h : validate_and_correct_player_data ps vp = Except.ok qs) :
    ∀ q ∈ qs, ∃ ref, lookupRef q.player_id vp = some ref ∧
      q.media_name = ref.media_name ∧ q.team_id = ref.team_id := by
  induction ps generalizing qs with
  | nil =>
    simp only [validate_and_correct_player_data, Except.ok.injEq] at h
    subst h
    simp
  | cons p ps ih =>
    simp only [validate_and_correct_player_data] at h
    match hl : lookupRef p.player_id vp with
    | none => rw [hl] at h; exact absurd h (by simp)
    | some ref =>
      rw [hl] at h
      match hrec : validate_and_correct_player_data ps vp with
      | Except.error e => rw [hrec] at h; exact absurd h (by simp)
      | Except.ok rs =>
        rw [hrec] at h
        simp only [Except.ok.injEq] at h
        subst h
        intro q hq
        rcases List.mem_cons.mp hq with rfl | hq2
        · refine ⟨ref, ?_, correct_player_media_name p ref, correct_player_team_id p ref⟩
          rw [correct_player_player_id]
          exact hl
        · exact ih rs hrec q hq2

/-- C2: whenever the reconcile pass succeeds, every player record of the result
carries exactly the reference map entry for its `player_id`: the canonical media name
and the reference team affiliation. -/
theorem reconcile_repairs_player_fields (gd gd' : GameData) (vt : List Int)
    (vp : List (Int × PlayerRef)) (h : validate_parsed_data gd vt vp = Except.ok gd')
    (q : PlayerBoxScoreModel) (hq : q ∈ gd'.player_box_scores) :
    ∃ ref, lookupRef q.player_id vp = some ref ∧
      q.media_name = ref.media_name ∧ q.team_id = ref.team_id := by
  simp only [validate_parsed_data] at h
  match ht : validate_team_data gd.team_box_scores vt with
  | Except.error e => rw [ht] at h; exact absurd h (by simp)
  | Except.ok u =>
    rw [ht] at h
    match hp : validate_and_correct_player_data gd.player_box_scores vp with
    | Except.error e => rw [hp] at h; exact absurd h (by simp)
    | Except.ok ps =>
      rw [hp] at h
      simp only [Except.ok.injEq] at h
      subst h
      exact validate_and_correct_ok_fields _ _ _ hp q hq

/-- The §8 repair scenario input: the record for player 101 arrives with `team_id = 2`
and the wrong display name. -/
def playerWrongLabel : PlayerBoxScoreModel :=
  { samplePlayer with team_id := 2, media_name := "Wrong Name" }

/-- The §8 repair scenario package. -/
def gdWrongLabel : GameData :=
  { team_box_scores := [sampleTeam, sampleTeam2], player_box_scores := [playerWrongLabel] }

/-- The §8 repair scenario output: the same package with the player record restored to
team 1 and media name "A. One" (that is, `samplePlayer`). -/
def gdWrongLabelFixed : GameData :=
  { team_box_scores := [sampleTeam, sampleTeam2], player_box_scores := [samplePlayer] }

/-- Witness for C2: reconciling the package whose player-101 record carries
`team_id = 2` and name "Wrong Name" succeeds and restores `team_id = 1` and
"A. One"; the restored record agrees with its reference entry. -/
theorem reconcile_repairs_player_fields_witness :
    validate_parsed_data gdWrongLabel referenceTeams referencePlayers =
        Except.ok gdWrongLabelFixed
    ∧ samplePlayer.team_id = 1 ∧ samplePlayer.media_name = "A. One"
    ∧ ∃ ref, lookupRef samplePlayer.player_id referencePlayers = some ref ∧
        samplePlayer.media_name = ref.media_name ∧ samplePlayer.team_id = ref.team_id :=
  ⟨rfl, rfl, rfl,
   reconcile_repairs_player_fields gdWrongLabel gdWrongLabelFixed referenceTeams
     referencePlayers rfl samplePlayer (List.mem_singleton.mpr rfl)⟩

lemma validate_and_correct_idem (ps : List PlayerBoxScoreModel)
    (vp : List (Int × PlayerRef)) (qs : List PlayerBoxScoreModel)
    (h : validate_and_correct_player_data ps vp = Except.ok qs) :
    validate_and_correct_player_data qs vp = Except.ok qs := by
  induction ps generalizing qs with
  | nil =>
    simp only [validate_and_correct_player_data, Except.ok.injEq] at h
    subst h
    rfl
  | cons p ps ih =>
    simp only [validate_and_correct_player_data] at h
    match hl : lookupRef p.player_id vp with
    | none => rw [hl] at h; exact absurd h (by simp)
    | some ref =>
      rw [hl] at h
      match hrec : validate_and_correct_player_data ps vp with
      | Except.error e => rw [hrec] at h; exact absurd h (by simp)
      | Except.ok rs =>
        rw [hrec] at h
        simp only [Except.ok.injEq] at h
        subst h
        have hid : lookupRef (correct_player p ref).player_id vp = some ref := by
          rw [correct_player_player_id]; exact hl
        have hfix : correct_player (correct_player p ref) ref = correct_player p ref :=
          correct_player_eq_self _ _ (correct_player_media_name p ref)
            (correct_player_team_id p ref)
        simp only [validate_and_correct_player_data, hid, ih rs hrec, hfix]

lemma validate_team_data_ok_iff (ts : List TeamBoxScoreModel) (vt : List Int) :
    validate_team_data ts vt = Except.ok () ↔ ∀ t ∈ ts, t.team_id ∈ vt := by
  induction ts with
  | nil => simp [validate_team_data]
  | cons t ts ih =>
    by_cases hm : t.team_id ∈ vt
    · simp [validate_team_data, hm, ih]
    · simp [validate_team_data, hm]

/-- C7: the reconcile pass is idempotent — when it succeeds, running it again on the
corrected package succeeds and returns that package unchanged. -/
theorem reconcile_idempotent (gd gd' : GameData) (vt : List Int)
    (vp : List (Int × PlayerRef)) (h : validate_parsed_data gd vt vp = Except.ok gd') :
    validate_parsed_data gd' vt vp = Except.ok gd' := by
  simp only [validate_parsed_data] at h
  match ht : validate_team_data gd.team_box_scores vt with
  | Except.error e => rw [ht] at h; exact absurd h (by simp)
  | Except.ok u =>
    rw [ht] at h
    match hp : validate_and_correct_player_data gd.player_box_scores vp with
    | Except.error e => rw [hp] at h; exact absurd h (by simp)
    | Except.ok ps =>
      rw [hp] at h
      simp only [Except.ok.injEq] at h
      subst h
      cases u
      have hp' := validate_and_correct_idem _ _ _ hp
      simp only [validate_parsed_data, ht, hp']

/-- Witness for C7: re-reconciling the corrected §8 package returns it unchanged. -/
theorem reconcile_idempotent_witness :
    validate_parsed_data gdWrongLabelFixed referenceTeams referencePlayers =
      Except.ok gdWrongLabelFixed :=
  reconcile_idempotent gdWrongLabel gdWrongLabelFixed referenceTeams referencePlayers rfl

/-- A store holding game 1 with its box scores already saved. -/
def storeWithStats : Store :=
  { games := [1]
    team_box_scores := [{ game_id := 1, data := sampleTeam }]
    player_box_scores := [{ game_id := 1, data := samplePlayer }] }

/-- A store holding game 1 with no box scores. -/
def storeEmpty : Store :=
  { games := [1], team_box_scores := [], player_box_scores := [] }

/-- A package passing the structural validation of the save gateway. -/
def gdValid : GameData :=
  { team_box_scores := [sampleTeam, sampleTeam2], player_box_scores := [samplePlayer] }

/-- A package with a single team box-score record. -/
def gdOneTeam : GameData :=
  { team_box_scores := [sampleTeam], player_box_scores := [samplePlayer] }

/-- C3 (amended): for every game that already has a `TeamBoxScore` row,
`save_game_stats` returns the "already has statistics" message as a normal result and
leaves the store — hence every previously saved row — unchanged, for any data argument
that passes the gateway structural validation, provided the game exists. (The original
claim quantified over all data arguments; data failing the structural validation raises
before the existing-statistics check is reached, see the counterexample.) -/
theorem save_refuses_when_stats_exist (s : Store) (game_id : Int) (gd : GameData)
    (hv : validate_box_score_data gd = Except.ok ())
    (hg : s.games.contains game_id = true)
    (hs : game_has_stats s game_id = true) :
    save_game_stats s game_id gd =
      (s, Except.ok ("Game already has statistics. No changes made.")) := by
  have hmem : game_id ∈ s.games := by simpa using hg
  simp only [save_game_stats]
  rw [hv]
  simp [hmem, hs]

/-- Witness for C3: on a store where game 1 already has statistics, a second save with
a structurally valid package returns the refusal message and the identical store. -/
theorem save_refuses_when_stats_exist_witness :
    save_game_stats storeWithStats 1 gdValid =
      (storeWithStats, Except.ok ("Game already has statistics. No changes made.")) :=
  save_refuses_when_stats_exist storeWithStats 1 gdValid rfl rfl rfl

/-- Counterexample for C3 as stated: with statistics already present for game 1, a save
with a one-team package raises the structural `ValueError` instead of returning the
"already has statistics" message — the refusal does not hold for arbitrary data. -/
theorem save_already_message_claim_counterexample :
    (save_game_stats storeWithStats 1 gdOneTeam).2 =
      Except.error ("Must have exactly 2 team box scores") := rfl

lemma addTeamRows_error_of (game_id : Int) (tds : List (PyVal × TeamBoxScoreModel))
    (h : ∃ d ∈ tds, pyIntCoerce d.1 = none) :
    ∃ e, addTeamRows game_id tds = Except.error e := by
  induction tds with
  | nil => simp at h
  | cons d rest ih =>
    obtain ⟨v, t⟩ := d
    obtain ⟨x, hx, hbad⟩ := h
    rcases List.mem_cons.mp hx with rfl | hx2
    · exact ⟨"Invalid team_id", by simp only [addTeamRows]; rw [show pyIntCoerce v = none from hbad]⟩
    · cases hc : pyIntCoerce v with
      | none => exact ⟨"Invalid team_id", by simp [addTeamRows, hc]⟩
      | some n =>
        obtain ⟨e, he⟩ := ih ⟨x, hx2, hbad⟩
        exact ⟨e, by simp [addTeamRows, hc, he]⟩

lemma addPlayerRows_error_of (game_id : Int)
    (pds : List (PyVal × PyVal × PlayerBoxScoreModel))
    (h : ∃ d ∈ pds, pyIntCoerce d.1 = none ∨ pyIntCoerce d.2.1 = none) :
    ∃ e, addPlayerRows game_id pds = Except.error e := by
  induction pds with
  | nil => simp at h
  | cons d rest ih =>
    obtain ⟨vt, vp, p⟩ := d
    obtain ⟨x, hx, hbad⟩ := h
    rcases List.mem_cons.mp hx with rfl | hx2
    · rcases hbad with hb | hb
      · cases hc2 : pyIntCoerce vp with
        | none => exact ⟨"Invalid ID", by simp only [addPlayerRows]; rw [show pyIntCoerce vt = none from hb, hc2]⟩
        | some np => exact ⟨"Invalid ID", by simp only [addPlayerRows]; rw [show pyIntCoerce vt = none from hb, hc2]⟩
      · cases hc1 : pyIntCoerce vt with
        | none => exact ⟨"Invalid ID", by simp only [addPlayerRows]; rw [hc1, show pyIntCoerce vp = none from hb]⟩
        | some nt => exact ⟨"Invalid ID", by simp only [addPlayerRows]; rw [hc1, show pyIntCoerce vp = none from hb]⟩
    · cases hc1 : pyIntCoerce vt with
      | none => exact ⟨"Invalid ID", by simp [addPlayerRows, hc1]⟩
      | some nt =>
        cases hc2 : pyIntCoerce vp with
        | none => exact ⟨"Invalid ID", by simp [addPlayerRows, hc1, hc2]⟩
        | some np =>
          obtain ⟨e, he⟩ := ih ⟨x, hx2, hbad⟩
          exact ⟨e, by simp [addPlayerRows, hc1, hc2, he]⟩

/-- C4: in the write transaction of the save path, every supplied team record's
`team_id` and every supplied player record's `team_id` and `player_id` pass through the
`int(...)` coercion, and if any single coercion fails the whole transaction aborts:
the paired store returned on the error path is the unchanged input store, so no team or
player box-score row for the game becomes visible. (For packages arriving through the
typed `GameData` models the dumped identifier slots are always `PyVal.int`, so this
abort path is unreachable from them — see `addTeamRows_dump_ok`.) -/
theorem save_write_aborts_on_coercion_failure (s : Store) (game_id : Int)
    (tds : List (PyVal × TeamBoxScoreModel))
    (pds : List (PyVal × PyVal × PlayerBoxScoreModel))
    (h : (∃ d ∈ tds, pyIntCoerce d.1 = none) ∨
         (∃ d ∈ pds, pyIntCoerce d.1 = none ∨ pyIntCoerce d.2.1 = none)) :
    (savePhase s game_id tds pds).1 = s ∧
    ∃ e, (savePhase s game_id tds pds).2 = Except.error e := by
  rcases h with hteam | hplayer
  · obtain ⟨e, he⟩ := addTeamRows_error_of game_id tds hteam
    exact ⟨by simp [savePhase, he],
      ⟨"Failed to save game data: " ++ e, by simp [savePhase, he]⟩⟩
  · obtain ⟨e, he⟩ := addPlayerRows_error_of game_id pds hplayer
    cases hta : addTeamRows game_id tds with
    | error e2 =>
      exact ⟨by simp [savePhase, hta],
        ⟨"Failed to save game data: " ++ e2, by simp [savePhase, hta]⟩⟩
    | ok trs =>
      exact ⟨by simp [savePhase, hta, he],
        ⟨"Failed to save game data: " ++ e, by simp [savePhase, hta, he]⟩⟩

/-- A dumped team row whose `team_id` slot holds a non-integer runtime value. -/
def badTeamDump : PyVal × TeamBoxScoreModel := (PyVal.none_, sampleTeam)

/-- Witness for C4: a write transaction handed a team row whose id slot cannot be
coerced to an integer errors out and returns the store unchanged. -/
theorem save_write_aborts_on_coercion_failure_witness :
    (savePhase storeEmpty 1 [badTeamDump] []).1 = storeEmpty ∧
    ∃ e, (savePhase storeEmpty 1 [badTeamDump] []).2 = Except.error e :=
  save_write_aborts_on_coercion_failure storeEmpty 1 [badTeamDump] []
    (Or.inl ⟨badTeamDump, List.mem_singleton.mpr rfl, rfl⟩)

/-- A package with three team box-score records. -/
def gdThreeTeams : GameData :=
  { team_box_scores := [sampleTeam, sampleTeam2, sampleTeam3]
    player_box_scores := [samplePlayer] }

/-- C6 (amended): the service gateway `save_game_stats` rejects, with the store
unchanged and before any row is written, every package whose team-record count differs
from 2; the module-level gateway `save_game_data` re-validates only the weaker
condition and rejects packages with fewer than 2 team records. (A 3-team package is
therefore rejected by the service gateway but not by the module-level one — see the
counterexample.) -/
theorem save_rejects_bad_team_count (s : Store) (game_id : Int) (gd : GameData)
    (h2 : gd.team_box_scores.length ≠ 2) :
    save_game_stats s game_id gd =
        (s, Except.error ("Must have exactly 2 team box scores"))
    ∧ (gd.team_box_scores.length < 2 →
        save_game_data s game_id gd =
          (s, Except.error ("Team box scores missing or incomplete"))) := by
  constructor
  · have hv : validate_box_score_data gd =
        Except.error ("Must have exactly 2 team box scores") := by
      simp [validate_box_score_data, h2]
    simp only [save_game_stats]
    rw [hv]
  · intro hlt
    have hv : db_validate_box_score_data gd =
        Except.error ("Team box scores missing or incomplete") := by
      simp [db_validate_box_score_data, hlt]
    simp only [save_game_data]
    rw [hv]

/-- Witness for C6 (amended): a one-team package is rejected by both gateways with the
store unchanged. -/
theorem save_rejects_bad_team_count_witness :
    save_game_stats storeEmpty 1 gdOneTeam =
        (storeEmpty, Except.error ("Must have exactly 2 team box scores"))
    ∧ save_game_data storeEmpty 1 gdOneTeam =
        (storeEmpty, Except.error ("Team box scores missing or incomplete")) := by
  obtain ⟨h1, h2⟩ := save_rejects_bad_team_count storeEmpty 1 gdOneTeam (by decide)
  exact ⟨h1, h2 (by decide)⟩

/-- Counterexample for C6 as stated: the module-level gateway `save_game_data` commits
a package with three team box-score records — on an empty store for game 1 it returns
a success message and leaves three `TeamBoxScore` rows for the game. -/
theorem db_gateway_commits_three_team_package :
    (∃ m, (save_game_data storeEmpty 1 gdThreeTeams).2 = Except.ok m) ∧
    countTeamRows (save_game_data storeEmpty 1 gdThreeTeams).1 1 = 3 :=
  ⟨⟨"Box score data saved for Game ID: " ++ toString (1 : Int), rfl⟩, rfl⟩

lemma mem_validate_game_data_of_team_pct (gd : GameData) (t : TeamBoxScoreModel)
    (ht : t ∈ gd.team_box_scores) (i : Issue) (hi : i ∈ validate_team_percentages t) :
    i ∈ validate_game_data gd := by
  have hm : i ∈ (gd.team_box_scores.map validate_team_percentages).flatten :=
    List.mem_flatten.mpr ⟨validate_team_percentages t, List.mem_map_of_mem _ ht, hi⟩
  simp only [validate_game_data, List.mem_append]
  exact Or.inl (Or.inr hm)

lemma mem_validate_game_data_of_player_pct (gd : GameData) (p : PlayerBoxScoreModel)
    (hp : p ∈ gd.player_box_scores) (i : Issue) (hi : i ∈ validate_player_percentages p) :
    i ∈ validate_game_data gd := by
  have hm : i ∈ (gd.player_box_scores.map validate_player_percentages).flatten :=
    List.mem_flatten.mpr ⟨validate_player_percentages p, List.mem_map_of_mem _ hp, hi⟩
  simp only [validate_game_data, List.mem_append]
  exact Or.inr hm

/-- C5 (amended): the advisory check is a pure function of the package that reports an
issue for a team box-score count different from 2, an issue for each team side
*appearing among the player records* with fewer than 5 player records, and, per team or
player record, an issue for the *first* percentage field (in the order FG%, 3P%, FT%)
lying outside `[0, 1]`. (The original claim promised an issue for every out-of-range
percentage field and for every team side; the per-record `try` block stops at the first
failing field, and sides with no player records produce no roster issue — see the
counterexample.) -/
theorem check_reports_each_defect (gd : GameData) :
    (gd.team_box_scores.length ≠ 2 →
      Issue.teamCountMismatch gd.team_box_scores.length ∈ validate_game_data gd)
  ∧ (∀ t c, (t, c) ∈ teamPlayerCounts gd.player_box_scores → c < 5 →
      Issue.tooFewPlayers t c ∈ validate_game_data gd)
  ∧ (∀ t ∈ gd.team_box_scores,
      (¬ pctInRange t.field_goal_percentage →
        Issue.invalidPct ("Team " ++ t.team_name) ("FG%") t.field_goal_percentage
          ∈ validate_game_data gd)
    ∧ (pctInRange t.field_goal_percentage → ¬ pctInRange t.three_pointer_percentage →
        Issue.invalidPct ("Team " ++ t.team_name) ("3P%") t.three_pointer_percentage
          ∈ validate_game_data gd)
    ∧ (pctInRange t.field_goal_percentage → pctInRange t.three_pointer_percentage →
        ¬ pctInRange t.free_throw_percentage →
        Issue.invalidPct ("Team " ++ t.team_name) ("FT%") t.free_throw_percentage
          ∈ validate_game_data gd))
  ∧ (∀ p ∈ gd.player_box_scores,
      (¬ pctInRange p.field_goal_percentage →
        Issue.invalidPct ("Player " ++ p.media_name) ("FG%") p.field_goal_percentage
          ∈ validate_game_data gd)
    ∧ (pctInRange p.field_goal_percentage → ¬ pctInRange p.three_pointer_percentage →
        Issue.invalidPct ("Player " ++ p.media_name) ("3P%") p.three_pointer_percentage
          ∈ validate_game_data gd)
    ∧ (pctInRange p.field_goal_percentage → pctInRange p.three_pointer_percentage →
        ¬ pctInRange p.free_throw_percentage →
        Issue.invalidPct ("Player " ++ p.media_name) ("FT%") p.free_throw_percentage
          ∈ validate_game_data gd)) := by
  refine ⟨?_, ?_, ?_, ?_⟩
  · intro hl
    simp only [validate_game_data, List.mem_append]
    exact Or.inl (Or.inl (Or.inl (by simp [hl])))
  · intro t c htc hc
    simp only [validate_game_data, List.mem_append]
    refine Or.inl (Or.inl (Or.inr ?_))
    exact List.mem_map.mpr ⟨(t, c), List.mem_filter.mpr ⟨htc, by simpa using hc⟩, rfl⟩
  · intro t ht
    refine ⟨fun h1 => ?_, fun h1 h2 => ?_, fun h1 h2 h3 => ?_⟩
    · exact mem_validate_game_data_of_team_pct gd t ht _
        (by simp [validate_team_percentages, h1])
    · exact mem_validate_game_data_of_team_pct gd t ht _
        (by simp [validate_team_percentages, h1, h2])
    · exact mem_validate_game_data_of_team_pct gd t ht _
        (by simp [validate_team_percentages, h1, h2, h3])
  · intro p hp
    refine ⟨fun h1 => ?_, fun h1 h2 => ?_, fun h1 h2 h3 => ?_⟩
    · exact mem_validate_game_data_of_player_pct gd p hp _
        (by simp [validate_player_percentages, h1])
    · exact mem_validate_game_data_of_player_pct gd p hp _
        (by simp [validate_player_percentages, h1, h2])
    · exact mem_validate_game_data_of_player_pct gd p hp _
        (by simp [validate_player_percentages, h1, h2, h3])

/-- A team record whose FG% and 3P% are both outside `[0, 1]`. -/
def teamTwoBadPcts : TeamBoxScoreModel :=
  { sampleTeam with field_goal_percentage := 2, three_pointer_percentage := 3 }

/-- Five player records, all on team 1 and all with in-range percentages. -/
def fivePlayersTeam1 : List PlayerBoxScoreModel :=
  [samplePlayer,
   { samplePlayer with player_id := 102 },
   { samplePlayer with player_id := 103 },
   { samplePlayer with player_id := 104 },
   { samplePlayer with player_id := 105 }]

/-- A package with two team sides (team 2 has no player records) whose first team
record carries two out-of-range percentage fields. -/
def gdCheckGaps : GameData :=
  { team_box_scores := [teamTwoBadPcts, sampleTeam2], player_box_scores := fivePlayersTeam1 }

/-- Counterexample for C5 as stated: on `gdCheckGaps` the check returns exactly one
issue — the FG% issue of team 1. The claim demands, at this same input, also a 3P%
issue for team 1 (a second out-of-range field of the same record) and a minimum-roster
issue for team side 2 (which has zero player records); neither is reported. -/
theorem check_claim_counterexample :
    validate_game_data gdCheckGaps = [Issue.invalidPct ("Team T1") ("FG%") 2]
    ∧ Issue.invalidPct ("Team T1") ("3P%") 3 ∉ validate_game_data gdCheckGaps
    ∧ Issue.tooFewPlayers 2 0 ∉ validate_game_data gdCheckGaps := by
  refine ⟨?_, ?_, ?_⟩ <;> decide

/-- A team record with FG% in range and 3P% outside. -/
def teamBad3P : TeamBoxScoreModel := { sampleTeam2 with three_pointer_percentage := 3 }

/-- A player record with FG% and 3P% in range and FT% outside. -/
def playerBadFT : PlayerBoxScoreModel := { samplePlayer with free_throw_percentage := -1 }

/-- A one-team package exhibiting a 3P% defect on the team record and an FT% defect on
the player record. -/
def gdPctWitness : GameData :=
  { team_box_scores := [teamBad3P], player_box_scores := [playerBadFT] }

/-- Witness for C5 (amended): concrete packages on which each reported defect kind is
present in the check output. -/
theorem check_reports_each_defect_witness :
    Issue.teamCountMismatch 1 ∈ validate_game_data gdOneTeam
  ∧ Issue.tooFewPlayers 1 1 ∈ validate_game_data gdOneTeam
  ∧ Issue.invalidPct ("Team T1") ("FG%") 2 ∈ validate_game_data gdCheckGaps
  ∧ Issue.invalidPct ("Team T2") ("3P%") 3 ∈ validate_game_data gdPctWitness
  ∧ Issue.invalidPct ("Player A. One") ("FT%") (-1) ∈ validate_game_data gdPctWitness := by
  refine ⟨?_, ?_, ?_, ?_, ?_⟩
  · exact (check_reports_each_defect gdOneTeam).1 (by decide)
  · exact (check_reports_each_defect gdOneTeam).2.1 1 1 (by decide) (by decide)
  · exact ((check_reports_each_defect gdCheckGaps).2.2.1 teamTwoBadPcts
      (List.mem_cons_self _ _)).1 (by decide)
  · exact ((check_reports_each_defect gdPctWitness).2.2.1 teamBad3P
      (List.mem_cons_self _ _)).2.1 (by decide) (by decide)
  · exact ((check_reports_each_defect gdPctWitness).2.2.2 playerBadFT
      (List.mem_cons_self _ _)).2.2 (by decide) (by decide) (by decide)

lemma bumpCount_keys : ∀ (acc : List (Int × Nat)) (tid x : Int) (n : Nat),
    (x, n) ∈ bumpCount acc tid → (∃ m, (x, m) ∈ acc) ∨ x = tid := by
  intro acc
  induction acc with
  | nil =>
    intro tid x n h
    exact Or.inr (congrArg Prod.fst (List.mem_singleton.mp h))
  | cons kc rest ih =>
    intro tid x n h
    obtain ⟨k, c⟩ := kc
    by_cases hk : k = tid
    · subst hk
      rw [show bumpCount ((k, c) :: rest) k = (k, c + 1) :: rest from by simp [bumpCount]] at h
      rcases List.mem_cons.mp h with heq | hrest
      · exact Or.inr (congrArg Prod.fst heq)
      · exact Or.inl ⟨n, List.mem_cons_of_mem _ hrest⟩
    · rw [show bumpCount ((k, c) :: rest) tid = (k, c) :: bumpCount rest tid from by
          simp [bumpCount, hk]] at h
      rcases List.mem_cons.mp h with heq | hrest
      · refine Or.inl ⟨c, ?_⟩
        rw [show x = k from congrArg Prod.fst heq]
        exact List.mem_cons_self _ _
      · rcases ih tid x n hrest with ⟨m, hm⟩ | h2
        · exact Or.inl ⟨m, List.mem_cons_of_mem _ hm⟩
        · exact Or.inr h2

lemma foldl_bump_keys : ∀ (ps : List PlayerBoxScoreModel) (acc : List (Int × Nat))
    (t : Int) (c : Nat), (t, c) ∈ ps.foldl (fun acc p => bumpCount acc p.team_id) acc →
    (∃ m, (t, m) ∈ acc) ∨ ∃ p ∈ ps, p.team_id = t := by
  intro ps
  induction ps with
  | nil =>
    intro acc t c h
    exact Or.inl ⟨c, h⟩
  | cons p ps ih =>
    intro acc t c h
    rcases ih (bumpCount acc p.team_id) t c h with ⟨m, hm⟩ | hex
    · rcases bumpCount_keys acc p.team_id t m hm with ⟨m2, hm2⟩ | h2
      · exact Or.inl ⟨m2, hm2⟩
      · exact Or.inr ⟨p, List.mem_cons_self _ _, h2.symm⟩
    · obtain ⟨q, hq, he⟩ := hex
      exact Or.inr ⟨q, List.mem_cons_of_mem _ hq, he⟩

lemma mem_teamPlayerCounts (ps : List PlayerBoxScoreModel) (t : Int) (c : Nat)
    (h : (t, c) ∈ teamPlayerCounts ps) : ∃ p ∈ ps, p.team_id = t := by
  rcases foldl_bump_keys ps [] t c h with ⟨m, hm⟩ | he
  · simp at hm
  · exact he

lemma validate_team_percentages_mem_shape (tm : TeamBoxScoreModel) (x : Issue)
    (hx : x ∈ validate_team_percentages tm) : ∃ en st v, x = Issue.invalidPct en st v := by
  unfold validate_team_percentages at hx
  split_ifs at hx <;> simp at hx <;> exact ⟨_, _, _, hx⟩

lemma validate_player_percentages_mem_shape (p : PlayerBoxScoreModel) (x : Issue)
    (hx : x ∈ validate_player_percentages p) : ∃ en st v, x = Issue.invalidPct en st v := by
  unfold validate_player_percentages at hx
  split_ifs at hx <;> simp at hx <;> exact ⟨_, _, _, hx⟩

/-- C10: the advisory check derives its per-team player counts solely from the player
box-score records, so a minimum-roster issue is raised only for a `team_id` that
appears in at least one player record: a team side with zero player records — even one
present among the team box-score records — produces no "fewer than 5 players" issue. -/
theorem roster_issue_only_for_present_teams (gd : GameData) (t : Int) (c : Nat)
    (h : ∀ p ∈ gd.player_box_scores, p.team_id ≠ t) :
    Issue.tooFewPlayers t c ∉ validate_game_data gd := by
  intro hmem
  simp only [validate_game_data, List.mem_append] at hmem
  rcases hmem with ((h1 | h2) | h3) | h4
  · by_cases hl : gd.team_box_scores.length ≠ 2
    · rw [if_pos hl] at h1
      simp at h1
    · rw [if_neg hl] at h1
      simp at h1
  · obtain ⟨tc, htc, heq⟩ := List.mem_map.mp h2
    obtain ⟨hm, _⟩ := List.mem_filter.mp htc
    obtain ⟨p, hp, hpt⟩ := mem_teamPlayerCounts _ tc.1 tc.2 hm
    injection heq with ha hb
    exact h p hp (hpt.trans ha)
  · obtain ⟨l, hl, hi⟩ := List.mem_flatten.mp h3
    obtain ⟨tm, htm, rfl⟩ := List.mem_map.mp hl
    obtain ⟨en, st, v, habs⟩ := validate_team_percentages_mem_shape tm _ hi
    simp at habs
  · obtain ⟨l, hl, hi⟩ := List.mem_flatten.mp h4
    obtain ⟨p, hp2, rfl⟩ := List.mem_map.mp hl
    obtain ⟨en, st, v, habs⟩ := validate_player_percentages_mem_shape p _ hi
    simp at habs

/-- Witness for C10: in `gdCheckGaps` no player record belongs to team 2, and indeed
no minimum-roster issue is reported for team 2 even though its side is empty. -/
theorem roster_issue_only_for_present_teams_witness :
    Issue.tooFewPlayers 2 0 ∉ validate_game_data gdCheckGaps :=
  roster_issue_only_for_present_teams gdCheckGaps 2 0 (by decide)

lemma addTeamRows_dump_ok (game_id : Int) (ts : List TeamBoxScoreModel) :
    addTeamRows game_id (ts.map dumpTeamRow) =
      Except.ok (ts.map fun t => { game_id := game_id, data := t }) := by
  induction ts with
  | nil => rfl
  | cons t ts ih => simp [addTeamRows, dumpTeamRow, pyIntCoerce, ih]

lemma addPlayerRows_dump_ok (game_id : Int) (ps : List PlayerBoxScoreModel) :
    addPlayerRows game_id (ps.map dumpPlayerRow) =
      Except.ok (ps.map fun p => { game_id := game_id, data := p }) := by
  induction ps with
  | nil => rfl
  | cons p ps ih => simp [addPlayerRows, dumpPlayerRow, pyIntCoerce, ih]

lemma savePhase_dump_ok (s : Store) (game_id : Int) (gd : GameData) :
    savePhase s game_id (gd.team_box_scores.map dumpTeamRow)
        (gd.player_box_scores.map dumpPlayerRow) =
      ({ s with
          team_box_scores := s.team_box_scores ++
            gd.team_box_scores.map (fun t => { game_id := game_id, data := t }),
          player_box_scores := s.player_box_scores ++
            gd.player_box_scores.map (fun p => { game_id := game_id, data := p }) },
       Except.ok ("Box score data saved for Game ID: " ++ toString game_id)) := by
  simp [savePhase, addTeamRows_dump_ok, addPlayerRows_dump_ok]

lemma filter_count_new_team (game_id : Int) (ts : List TeamBoxScoreModel) :
    ((ts.map fun t => ({ game_id := game_id, data := t } : TeamBoxScore)).filter
      (fun r => r.game_id == game_id)).length = ts.length := by
  induction ts with
  | nil => rfl
  | cons t ts ih => simp [List.filter_cons, ih]

lemma filter_count_new_player (game_id : Int) (ps : List PlayerBoxScoreModel) :
    ((ps.map fun p => ({ game_id := game_id, data := p } : PlayerBoxScore)).filter
      (fun r => r.game_id == game_id)).length = ps.length := by
  induction ps with
  | nil => rfl
  | cons p ps ih => simp [List.filter_cons, ih]

lemma game_has_stats_eq_false_of (s : Store) (game_id : Int)
    (h : countTeamRows s game_id = 0) : game_has_stats s game_id = false := by
  unfold countTeamRows at h
  have hnil : s.team_box_scores.filter (fun r => r.game_id == game_id) = [] :=
    List.length_eq_zero.mp h
  unfold game_has_stats
  rw [List.any_eq_false]
  intro r hr hpr
  have : r ∈ s.team_box_scores.filter (fun r => r.game_id == game_id) :=
    List.mem_filter.mpr ⟨hr, hpr⟩
  rw [hnil] at this
  simp at this

lemma save_game_stats_fresh_counts (s : Store) (game_id : Int) (gd : GameData)
    (hv : validate_box_score_data gd = Except.ok ())
    (hg : game_id ∈ s.games)
    (h0 : game_has_stats s game_id = false) :
    countTeamRows (save_game_stats s game_id gd).1 game_id
        = countTeamRows s game_id + gd.team_box_scores.length
    ∧ countPlayerRows (save_game_stats s game_id gd).1 game_id
        = countPlayerRows s game_id + gd.player_box_scores.length
    ∧ ∃ m, (save_game_stats s game_id gd).2 = Except.ok m := by
  have hc : s.games.contains game_id = true := by simpa using hg
  have hred : save_game_stats s game_id gd =
      savePhase s game_id (gd.team_box_scores.map dumpTeamRow)
        (gd.player_box_scores.map dumpPlayerRow) := by
    simp only [save_game_stats]
    rw [hv]
    simp [hg, hc, h0]
  rw [hred, savePhase_dump_ok]
  refine ⟨?_, ?_, ⟨_, rfl⟩⟩
  · simp [countTeamRows, List.filter_append, filter_count_new_team]
  · simp [countPlayerRows, List.filter_append, filter_count_new_player]

lemma filter_ne_then_eq_nil_team (l : List TeamBoxScore) (game_id : Int) :
    (l.filter (fun r => r.game_id != game_id)).filter
      (fun r => r.game_id == game_id) = [] := by
  induction l with
  | nil => rfl
  | cons r l ih =>
    by_cases hr : r.game_id = game_id
    · simp [List.filter_cons, hr, ih]
    · simp [List.filter_cons, hr, ih]

lemma filter_ne_then_eq_nil_player (l : List PlayerBoxScore) (game_id : Int) :
    (l.filter (fun r => r.game_id != game_id)).filter
      (fun r => r.game_id == game_id) = [] := by
  induction l with
  | nil => rfl
  | cons r l ih =>
    by_cases hr : r.game_id = game_id
    · simp [List.filter_cons, hr, ih]
    · simp [List.filter_cons, hr, ih]

/-- C8: for a structurally valid package and an existing game, `delete_game_stats`
followed by `save_game_stats` (the `update_game_stats` path) leaves exactly as many
team and player box-score rows for that game as one successful `save_game_stats` on a
store where the game was never populated — both equal the record counts of the
package. -/
theorem delete_then_save_roundtrip (s s0 : Store) (game_id : Int) (gd : GameData)
    (hv : validate_box_score_data gd = Except.ok ())
    (hg : game_id ∈ s.games) (hg0 : game_id ∈ s0.games)
    (h0t : countTeamRows s0 game_id = 0) (h0p : countPlayerRows s0 game_id = 0) :
    countTeamRows (update_game_stats s game_id gd).1 game_id
        = countTeamRows (save_game_stats s0 game_id gd).1 game_id
    ∧ countPlayerRows (update_game_stats s game_id gd).1 game_id
        = countPlayerRows (save_game_stats s0 game_id gd).1 game_id
    ∧ countTeamRows (update_game_stats s game_id gd).1 game_id
        = gd.team_box_scores.length
    ∧ countPlayerRows (update_game_stats s game_id gd).1 game_id
        = gd.player_box_scores.length := by
  have h1t : countTeamRows (delete_game_stats s game_id).1 game_id = 0 := by
    simp [delete_game_stats, countTeamRows, filter_ne_then_eq_nil_team]
  have h1p : countPlayerRows (delete_game_stats s game_id).1 game_id = 0 := by
    simp [delete_game_stats, countPlayerRows, filter_ne_then_eq_nil_player]
  have h1g : game_id ∈ (delete_game_stats s game_id).1.games := hg
  obtain ⟨hu1, hu2, _⟩ := save_game_stats_fresh_counts (delete_game_stats s game_id).1
    game_id gd hv h1g (game_has_stats_eq_false_of _ _ h1t)
  obtain ⟨hf1, hf2, _⟩ := save_game_stats_fresh_counts s0 game_id gd hv hg0
    (game_has_stats_eq_false_of _ _ h0t)
  have e1 : countTeamRows (update_game_stats s game_id gd).1 game_id
      = gd.team_box_scores.length := by
    simpa [update_game_stats, h1t] using hu1
  have e2 : countPlayerRows (update_game_stats s game_id gd).1 game_id
      = gd.player_box_scores.length := by
    simpa [update_game_stats, h1p] using hu2
  have e3 : countTeamRows (save_game_stats s0 game_id gd).1 game_id
      = gd.team_box_scores.length := by
    simpa [h0t] using hf1
  have e4 : countPlayerRows (save_game_stats s0 game_id gd).1 game_id
      = gd.player_box_scores.length := by
    simpa [h0p] using hf2
  exact ⟨e1.trans e3.symm, e2.trans e4.symm, e1, e2⟩

/-- Witness for C8: on a store where game 1 is populated, deleting and re-saving the
two-team one-player package leaves the same per-game row counts (2 and 1) as a single
save on a store where game 1 was never populated. -/
theorem delete_then_save_roundtrip_witness :
    countTeamRows (update_game_stats storeWithStats 1 gdValid).1 1
        = countTeamRows (save_game_stats storeEmpty 1 gdValid).1 1
    ∧ countPlayerRows (update_game_stats storeWithStats 1 gdValid).1 1
        = countPlayerRows (save_game_stats storeEmpty 1 gdValid).1 1
    ∧ countTeamRows (update_game_stats storeWithStats 1 gdValid).1 1 = 2
    ∧ countPlayerRows (update_game_stats storeWithStats 1 gdValid).1 1 = 1 :=
  delete_then_save_roundtrip storeWithStats storeEmpty 1 gdValid rfl
    (by decide) (by decide) rfl rfl

/-- C9: the extraction entry point encodes the file before any client or network
activity; a file whose (lower-cased) suffix lies outside the allowed set
{.pdf, .jpg, .jpeg, .png} — the PDF/JPEG/PNG media types — fails with no external
effect recorded, and the one extraction request is ever issued only for suffixes
inside that set. -/
theorem extraction_gate_blocks_unsupported_types (api_key : Option String)
    (ext contents : String) (outcome : RemoteOutcome) (vt : List Int)
    (vp : List (Int × PlayerRef)) (h : ext ∉ ALLOWED_EXTENSIONS) :
    (parse_game_file api_key ext contents outcome vt vp).1 = []
    ∧ (∃ e, (parse_game_file api_key ext contents outcome vt vp).2 = Except.error e)
    ∧ (∀ (k : Option String) (e c : String) (o : RemoteOutcome) (vt2 : List Int)
          (vp2 : List (Int × PlayerRef)),
        Effect.sendRequest ∈ (parse_game_file k e c o vt2 vp2).1 →
        e ∈ ALLOWED_EXTENSIONS) := by
  have henc : encode_file ext contents =
      Except.error ("Unsupported file type: " ++ ext) := by
    simp [encode_file, h]
  refine ⟨?_, ?_, ?_⟩
  · simp [parse_game_file, henc]
  · exact ⟨"File encoding failed: " ++ ("Unsupported file type: " ++ ext),
      by simp [parse_game_file, henc]⟩
  · intro k e c o vt2 vp2 hmem
    by_cases he : e ∈ ALLOWED_EXTENSIONS
    · exact he
    · exfalso
      have henc2 : encode_file e c = Except.error ("Unsupported file type: " ++ e) := by
        simp [encode_file, he]
      rw [show (parse_game_file k e c o vt2 vp2).1 = [] from by
        simp [parse_game_file, henc2]] at hmem
      simp at hmem

/-- Witness for C9: a ".txt" file is rejected with no external effect recorded. -/
theorem extraction_gate_blocks_unsupported_types_witness :
    (parse_game_file (some ("key")) (".txt") ("bytes") RemoteOutcome.refused [] []).1 = []
    ∧ ∃ e, (parse_game_file (some ("key")) (".txt") ("bytes")
        RemoteOutcome.refused [] []).2 = Except.error e := by
  obtain ⟨h1, h2, h3⟩ := extraction_gate_blocks_unsupported_types (some ("key")) (".txt")
    ("bytes") RemoteOutcome.refused [] [] (by decide)
  exact ⟨h1, h2⟩
